import Mathlib

/-
Verification of the weather-mcp server (src/index.ts).

The program registers one MCP tool, "get-alerts". Its handler upper-cases the
two-letter state argument, issues a single HTTP GET against the National
Weather Service API through makeNWSRequest, and maps the outcome to one of
three text responses. This file gives a shallow embedding of that code:

  - The network is abstracted by a FetchOutcome value describing what the
    single fetch call did (threw, or returned a status together with a body
    that either parsed or did not). makeNWSRequest is then a pure function
    of that outcome, mirroring the try/catch at src/index.ts lines 33-50.
  - AlertProps / AlertFeature / AlertsResponse transcribe the TypeScript
    interfaces at src/index.ts lines 52-64: properties is a required object
    whose five fields are optional strings; features is the response array,
    kept optional because the handler guards it with a JS truthiness check.
  - RawAlertFeature / RawAlertsResponse additionally model the runtime shape
    behind the unchecked cast in makeNWSRequest: parsed JSON may lack the
    properties object entirely, in which case formatAlert dereferences
    undefined and throws a TypeError at runtime. The Raw variants return
    Except to record that thrown exception.
  - The zod schema z.string().length(2) (src/index.ts line 102) and the
    protocol dispatch that runs it before the handler are modelled by
    JsValue / zodStateAccepts / dispatchGetAlerts.

String operations: JS template literals become String append; the join
calls become String.intercalate; state.toUpperCase() becomes a per-character
ASCII upper-casing (identical to the JS behaviour on the ASCII inputs at
hand, and fully computable).
-/

namespace WeatherMcp

/-- Source line 5: the NWS API base URL constant. Note that it ends with a
slash. -/
def NWS_API_BASE : String := "https://api.weather.gov/"

/-- Source line 6: the User-Agent header value. -/
def USER_AGENT : String := "weather-app/1.0"

/-- Source lines 34-37: the header object passed to fetch. The second header
name is written lower-case in the source. -/
def requestHeaders : List (String × String) :=
  [("User-Agent", USER_AGENT), ("accept", "application/geo+json")]

/-- Embedding of state.toUpperCase() (source line 105): upper-case every
character. On ASCII input this agrees with the JS method. -/
def toUpperCase (s : String) : String := ⟨s.data.map Char.toUpper⟩

/-- Source lines 53-59: the optional string fields of an alert feature
properties object. -/
structure AlertProps where
  event : Option String
  areaDesc : Option String
  severity : Option String
  status : Option String
  headline : Option String
deriving DecidableEq

/-- Source lines 52-60: the AlertFeature interface. The interface declares
properties as a required member. -/
structure AlertFeature where
  properties : AlertProps
deriving DecidableEq

/-- Source lines 62-64: the AlertsResponse interface. The features field is
kept optional here because the handler guards it with a truthiness check
(line 118), treating an absent field as an empty list. -/
structure AlertsResponse where
  features : Option (List AlertFeature)
deriving DecidableEq

/-- Runtime shape of one element of the parsed features array: the unchecked
cast in makeNWSRequest means the properties object may be missing. -/
structure RawAlertFeature where
  properties : Option AlertProps
deriving DecidableEq

/-- Runtime shape of the parsed alerts body behind the unchecked cast. -/
structure RawAlertsResponse where
  features : Option (List RawAlertFeature)
deriving DecidableEq

/-- What the single fetch call inside makeNWSRequest did, for a body parsed
at type α (makeNWSRequest is generic in the source as well):
either the fetch promise rejected, or a response arrived carrying an HTTP
status and a body that response.json() either parsed to a value of α (some)
or failed to parse, throwing (none). -/
inductive FetchOutcome (α : Type) where
  | throws
  | response (status : Nat) (body : Option α)
deriving DecidableEq

/-- Embedding of response.ok: the HTTP status is in the 2xx range. -/
def responseOk (status : Nat) : Bool :=
  decide (200 ≤ status) && decide (status < 300)

/-- Source lines 33-50: makeNWSRequest. Inside try: fetch the URL; if the
response is not ok, throw; otherwise return the parsed JSON body. Any
exception (network error, the thrown status error, or a body parse error)
is caught, logged, and turned into null. -/
def makeNWSRequest {α : Type} : FetchOutcome α → Option α
  | .throws => none
  | .response status body =>
    if !responseOk status then
      none
    else
      match body with
      | none => none
      | some data => some data

/-- The failure condition on a fetch outcome: the fetch threw, or the status
was not a success status, or the body did not parse. Exactly the outcomes on
which the catch block of makeNWSRequest fires. -/
def fetchFailed {α : Type} : FetchOutcome α → Prop
  | .throws => True
  | .response status body => responseOk status = false ∨ body = none

/-- JS truthiness fallback on an optional string, embedding the pattern
props.field || defaultValue (source lines 90-94): the default is taken when
the field is absent and also when it is the empty string, because the empty
string is falsy. -/
def strOr : Option String → String → String
  | none, d => d
  | some s, d => if s = "" then d else s

/-- Source lines 87-96: formatAlert builds five labelled lines and joins
them with a newline. -/
def formatAlert (feature : AlertFeature) : String :=
  String.intercalate "\n"
    [ "event: " ++ strOr feature.properties.event "Unknown Event"
    , "area: " ++ strOr feature.properties.areaDesc "Unknown Area"
    , "severity: " ++ strOr feature.properties.severity "Unknown Severity"
    , "status: " ++ strOr feature.properties.status "Unknown Status"
    , "headline: " ++ strOr feature.properties.headline "Unknown Headline" ]

/-- Runtime behaviour of formatAlert on a raw feature: reading
feature.properties yields undefined when the object is missing, and the
subsequent props.event access throws a TypeError. -/
def formatAlertRaw (feature : RawAlertFeature) : Except String String :=
  match feature.properties with
  | none => .error "TypeError: Cannot read properties of undefined"
  | some props => .ok (formatAlert { properties := props })

/-- One content block of a tool result (source returns objects of the shape
with a type tag and a text payload). -/
structure ContentBlock where
  type : String
  text : String
deriving DecidableEq

/-- The value returned by the tool handler: a content array. -/
structure ToolResult where
  content : List ContentBlock
deriving DecidableEq

/-- Source line 106: the request URL, a template literal that places a slash
between the base constant and the query part. -/
def alertsUrl (stateCode : String) : String :=
  NWS_API_BASE ++ "/alerts?area=" ++ stateCode

/-- Source lines 105-106: the URL the handler requests for a given state
argument, after upper-casing it. -/
def handlerRequestUrl (state : String) : String :=
  alertsUrl (toUpperCase state)

/-- Source lines 104-137: the get-alerts handler body, over the typed shape
of the interfaces. Upper-case the state; fetch; on null return the fixed
failure text; read features with an empty-list fallback; on zero features
return the fixed no-alerts text; otherwise format every feature and join the
blocks with a blank line under the header line. -/
def getAlertsHandler (state : String) (fetchResult : FetchOutcome AlertsResponse) :
    ToolResult :=
  let stateCode := toUpperCase state
  match makeNWSRequest fetchResult with
  | none =>
    { content := [{ type := "text", text := "Failed to retrieve alerts. Please try again later." }] }
  | some alertsData =>
    let features := alertsData.features.getD []
    if features.length = 0 then
      { content := [{ type := "text", text := "No alerts found for the given state." }] }
    else
      let formattedAlerts := features.map formatAlert
      let alertsText :=
        "Active Alerts in " ++ stateCode ++ ":\n" ++ String.intercalate "\n\n" formattedAlerts
      { content := [{ type := "text", text := alertsText }] }

/-- The JS array map evaluated left to right over a function that can throw:
the first exception propagates and the remaining elements are not visited.
This is the runtime behaviour of features.map(formatAlert). -/
def mapFormatRaw : List RawAlertFeature → Except String (List String)
  | [] => .ok []
  | f :: fs =>
    match formatAlertRaw f with
    | .error e => .error e
    | .ok s =>
      match mapFormatRaw fs with
      | .error e => .error e
      | .ok ss => .ok (s :: ss)

/-- The get-alerts handler over the runtime (raw) shape of the parsed JSON.
Identical control flow, except that features.map formatAlert can now throw
at the first feature whose properties object is missing; the Except records
that the exception escapes the handler, which has no try/catch of its own. -/
def getAlertsHandlerRaw (state : String) (fetchResult : FetchOutcome RawAlertsResponse) :
    Except String ToolResult :=
  let stateCode := toUpperCase state
  match makeNWSRequest fetchResult with
  | none =>
    .ok { content := [{ type := "text", text := "Failed to retrieve alerts. Please try again later." }] }
  | some alertsData =>
    let features := alertsData.features.getD []
    if features.length = 0 then
      .ok { content := [{ type := "text", text := "No alerts found for the given state." }] }
    else
      match mapFormatRaw features with
      | .error e => .error e
      | .ok formattedAlerts =>
        let alertsText :=
          "Active Alerts in " ++ stateCode ++ ":\n" ++ String.intercalate "\n\n" formattedAlerts
        .ok { content := [{ type := "text", text := alertsText }] }

/-- The list of raw features a given fetch outcome actually delivers to the
handler: empty when the fetch failed or the features field is absent. -/
def rawFeaturesOf (o : FetchOutcome RawAlertsResponse) : List RawAlertFeature :=
  match makeNWSRequest o with
  | none => []
  | some d => d.features.getD []

/-- A JSON argument value as the protocol layer sees it, for schema
validation. -/
inductive JsValue where
  | str (s : String)
  | num (n : Int)
  | boolean (b : Bool)
  | null
deriving DecidableEq

/-- Source line 102: the declared input schema for the state parameter,
z.string().length(2): accept exactly the strings of length two. -/
def zodStateAccepts : JsValue → Bool
  | .str s => s.length == 2
  | _ => false

/-- The protocol dispatch for get-alerts: schema validation runs first, and
the handler body is invoked only on a string argument of length exactly two;
every other argument is rejected (none) without any fetch taking place. -/
def dispatchGetAlerts (arg : JsValue) (fetchResult : FetchOutcome AlertsResponse) :
    Option ToolResult :=
  match arg with
  | .str s => if s.length = 2 then some (getAlertsHandler s fetchResult) else none
  | _ => none

/-- A sample fully-populated alert properties object, used to instantiate
theorems at concrete inputs. -/
def sampleProps : AlertProps :=
  { event := some "Flood Warning"
  , areaDesc := some "Sacramento County"
  , severity := some "Severe"
  , status := some "Actual"
  , headline := some "Flood Warning issued for Sacramento County" }

/-- A sample alert feature built from sampleProps. -/
def sampleFeature : AlertFeature := { properties := sampleProps }

/-- A sample alert feature whose fields are all absent. -/
def blankFeature : AlertFeature :=
  { properties :=
    { event := none, areaDesc := none, severity := none, status := none, headline := none } }

/- Helper lemmas about the embedded operations. -/

theorem strOr_none (d : String) : strOr none d = d := rfl

theorem strOr_some_of_ne (s d : String) (h : s ≠ "") : strOr (some s) d = s := by
  simp [strOr, h]

theorem strOr_some_empty (d : String) : strOr (some "") d = d := rfl

theorem makeNWSRequest_eq_none {α : Type} (o : FetchOutcome α) (h : fetchFailed o) :
    makeNWSRequest o = none := by
  cases o with
  | throws => rfl
  | response status body =>
    rcases h with hok | hb
    · simp [makeNWSRequest, hok]
    · subst hb
      cases hr : responseOk status <;> simp [makeNWSRequest, hr]

theorem makeNWSRequest_eq_some {α : Type} (status : Nat) (d : α)
    (h : responseOk status = true) :
    makeNWSRequest (FetchOutcome.response status (some d)) = some d := by
  simp [makeNWSRequest, h]

/-- C1: for every invocation of the get-alerts handler in which the upstream
fetch fails for any reason (thrown network error, non-success HTTP status, or
unparsable body), makeNWSRequest returns null and the handler returns the
exact text "Failed to retrieve alerts. Please try again later.", with no
distinction among the three failure causes. -/
theorem getAlerts_failure_fixed_message (o : FetchOutcome AlertsResponse)
    (h : fetchFailed o) :
    makeNWSRequest o = none ∧
    ∀ state : String,
      getAlertsHandler state o =
        { content :=
            [{ type := "text", text := "Failed to retrieve alerts. Please try again later." }] } := by
  have hm : makeNWSRequest o = none := makeNWSRequest_eq_none o h
  exact ⟨hm, fun state => by simp [getAlertsHandler, hm]⟩

/-- Witness for C1 at a concrete failing outcome: HTTP status 500 with a
parsable body. -/
theorem getAlerts_failure_fixed_message_witness :
    fetchFailed (FetchOutcome.response 500 (some ({ features := some [] } : AlertsResponse))) ∧
    getAlertsHandler "CA" (FetchOutcome.response 500 (some { features := some [] })) =
      { content :=
          [{ type := "text", text := "Failed to retrieve alerts. Please try again later." }] } := by
  have h : fetchFailed (FetchOutcome.response 500 (some ({ features := some [] } : AlertsResponse))) := by
    show responseOk 500 = false ∨ some ({ features := some [] } : AlertsResponse) = none
    exact Or.inl (by decide)
  exact ⟨h, (getAlerts_failure_fixed_message _ h).2 "CA"⟩

/-- C3: for every successful upstream response whose features array is empty,
and also for every successful response in which the features field is absent
(absence is treated as an empty sequence), the handler returns the exact text
"No alerts found for the given state.". -/
theorem getAlerts_no_alerts_message (state : String) (status : Nat)
    (feats : Option (List AlertFeature)) (hok : responseOk status = true)
    (hfeats : feats = none ∨ feats = some []) :
    getAlertsHandler state (FetchOutcome.response status (some { features := feats })) =
      { content := [{ type := "text", text := "No alerts found for the given state." }] } := by
  have hm := makeNWSRequest_eq_some status ({ features := feats } : AlertsResponse) hok
  rcases hfeats with h | h <;> subst h <;> simp [getAlertsHandler, hm]

/-- Witness for C3 at a concrete successful outcome with the features field
absent. -/
theorem getAlerts_no_alerts_message_witness :
    responseOk 200 = true ∧
    getAlertsHandler "CA" (FetchOutcome.response 200 (some { features := none })) =
      { content := [{ type := "text", text := "No alerts found for the given state." }] } :=
  ⟨by decide, getAlerts_no_alerts_message "CA" 200 none (by decide) (Or.inl rfl)⟩

/-- C10: every value returned by the get-alerts handler, on all outcome paths
(fetch failure, zero features, one or more features), has a content array
containing exactly one block, and that block has type "text"; no other
content shape or block count is ever produced. -/
theorem getAlerts_single_text_block (state : String) (o : FetchOutcome AlertsResponse) :
    ∃ t, getAlertsHandler state o = { content := [{ type := "text", text := t }] } := by
  cases hm : makeNWSRequest o with
  | none =>
    exact ⟨"Failed to retrieve alerts. Please try again later.",
      by simp [getAlertsHandler, hm]⟩
  | some d =>
    by_cases h : (d.features.getD []).length = 0
    · exact ⟨"No alerts found for the given state.", by simp [getAlertsHandler, hm, h]⟩
    · exact ⟨"Active Alerts in " ++ toUpperCase state ++ ":\n" ++
        String.intercalate "\n\n" ((d.features.getD []).map formatAlert),
        by simp [getAlertsHandler, hm, h]⟩

/-- Closed form of formatAlert as one five-segment concatenation. -/
theorem formatAlert_unfold (f : AlertFeature) :
    formatAlert f =
      "event: " ++ strOr f.properties.event "Unknown Event" ++
      "\narea: " ++ strOr f.properties.areaDesc "Unknown Area" ++
      "\nseverity: " ++ strOr f.properties.severity "Unknown Severity" ++
      "\nstatus: " ++ strOr f.properties.status "Unknown Status" ++
      "\nheadline: " ++ strOr f.properties.headline "Unknown Headline" := by
  apply String.ext
  simp [formatAlert, String.intercalate, String.intercalate.go, String.data_append]

/-- C2: for every alert feature, formatAlert produces exactly five
newline-separated lines of the form "label: value", in the fixed order
event, area (from areaDesc), severity, status, headline, substituting the
literal string "Unknown Event" / "Unknown Area" / "Unknown Severity" /
"Unknown Status" / "Unknown Headline" for the corresponding field when it is
missing, and the field value itself when it is present and non-empty. -/
theorem formatAlert_five_fixed_lines (f : AlertFeature) :
    ∃ v1 v2 v3 v4 v5,
      formatAlert f =
        "event: " ++ v1 ++ "\narea: " ++ v2 ++ "\nseverity: " ++ v3 ++
        "\nstatus: " ++ v4 ++ "\nheadline: " ++ v5 ∧
      (f.properties.event = none → v1 = "Unknown Event") ∧
      (f.properties.areaDesc = none → v2 = "Unknown Area") ∧
      (f.properties.severity = none → v3 = "Unknown Severity") ∧
      (f.properties.status = none → v4 = "Unknown Status") ∧
      (f.properties.headline = none → v5 = "Unknown Headline") ∧
      (∀ s, f.properties.event = some s → s ≠ "" → v1 = s) ∧
      (∀ s, f.properties.areaDesc = some s → s ≠ "" → v2 = s) ∧
      (∀ s, f.properties.severity = some s → s ≠ "" → v3 = s) ∧
      (∀ s, f.properties.status = some s → s ≠ "" → v4 = s) ∧
      (∀ s, f.properties.headline = some s → s ≠ "" → v5 = s) := by
  refine ⟨strOr f.properties.event "Unknown Event",
    strOr f.properties.areaDesc "Unknown Area",
    strOr f.properties.severity "Unknown Severity",
    strOr f.properties.status "Unknown Status",
    strOr f.properties.headline "Unknown Headline",
    formatAlert_unfold f, ?_, ?_, ?_, ?_, ?_, ?_, ?_, ?_, ?_, ?_⟩
  all_goals first
    | (intro h; rw [h]; rfl)
    | (intro s hs hne; rw [hs]; exact strOr_some_of_ne s _ hne)

/-- Witness for C2 at a feature with every field missing and at a feature
with every field populated: the five default lines and the five populated
lines respectively. -/
theorem formatAlert_five_fixed_lines_witness :
    formatAlert blankFeature =
      "event: Unknown Event\narea: Unknown Area\nseverity: Unknown Severity" ++
      "\nstatus: Unknown Status\nheadline: Unknown Headline" ∧
    formatAlert sampleFeature =
      "event: Flood Warning\narea: Sacramento County\nseverity: Severe" ++
      "\nstatus: Actual\nheadline: Flood Warning issued for Sacramento County" := by
  obtain ⟨v1, v2, v3, v4, v5, heq, h1, h2, h3, h4, h5, -, -, -, -, -⟩ :=
    formatAlert_five_fixed_lines blankFeature
  constructor
  · rw [heq, h1 rfl, h2 rfl, h3 rfl, h4 rfl, h5 rfl]
    decide
  · obtain ⟨w1, w2, w3, w4, w5, heq2, -, -, -, -, -, g1, g2, g3, g4, g5⟩ :=
      formatAlert_five_fixed_lines sampleFeature
    rw [heq2, g1 _ rfl (by decide), g2 _ rfl (by decide), g3 _ rfl (by decide),
      g4 _ rfl (by decide), g5 _ rfl (by decide)]
    decide

/-- C9: formatAlert substitutes the "Unknown <Label>" default not only when a
property is absent but also when it is present and equal to the empty string,
because each fallback is chosen by JS truthiness; in particular for every
feature with event equal to the empty string the first line is
"event: Unknown Event". -/
theorem formatAlert_empty_string_defaults :
    (∀ d : String, strOr (some "") d = d ∧ strOr none d = d) ∧
    ∀ f : AlertFeature, f.properties.event = some "" →
      ∃ rest, formatAlert f = "event: Unknown Event\n" ++ rest := by
  refine ⟨fun d => ⟨rfl, rfl⟩, fun f h => ?_⟩
  refine ⟨"area: " ++ strOr f.properties.areaDesc "Unknown Area" ++
    "\nseverity: " ++ strOr f.properties.severity "Unknown Severity" ++
    "\nstatus: " ++ strOr f.properties.status "Unknown Status" ++
    "\nheadline: " ++ strOr f.properties.headline "Unknown Headline", ?_⟩
  rw [formatAlert_unfold f, h]
  apply String.ext
  simp [strOr, String.data_append]

/-- Witness for C9 at a concrete feature whose event field is present but
empty. -/
theorem formatAlert_empty_string_defaults_witness :
    strOr (some "") "Unknown Event" = "Unknown Event" ∧
    ∃ rest,
      formatAlert
        { properties :=
          { event := some "", areaDesc := none, severity := none
          , status := none, headline := none } } = "event: Unknown Event\n" ++ rest :=
  ⟨(formatAlert_empty_string_defaults.1 "Unknown Event").1,
    formatAlert_empty_string_defaults.2 _ rfl⟩

theorem intercalate_singleton (s a : String) : String.intercalate s [a] = a := by
  apply String.ext
  simp [String.intercalate, String.intercalate.go]

theorem intercalate_pair (s a b : String) : String.intercalate s [a, b] = a ++ s ++ b := by
  apply String.ext
  simp [String.intercalate, String.intercalate.go, String.data_append]

/-- Reduction of the handler on the success path: an ok status, a parsed
body, and a non-empty features list. -/
theorem getAlertsHandler_success (state : String) (status : Nat) (fs : List AlertFeature)
    (hok : responseOk status = true) (hne : fs ≠ []) :
    getAlertsHandler state (FetchOutcome.response status (some { features := some fs })) =
      ToolResult.mk [ContentBlock.mk "text"
        ("Active Alerts in " ++ toUpperCase state ++ ":\n" ++
          String.intercalate "\n\n" (fs.map formatAlert))] := by
  have hm := makeNWSRequest_eq_some status ({ features := some fs } : AlertsResponse) hok
  have hlen : fs.length ≠ 0 := by simpa using hne
  simp [getAlertsHandler, hm, hlen]

/-- C4: for every successful upstream response with one or more features, the
handler returns the header line "Active Alerts in <STATE>:" followed by a
newline and the formatAlert blocks of all features in upstream response
order, joined with exactly one blank line between consecutive blocks and no
trailing separator; in particular for exactly one feature the text is the
header plus formatAlert of that feature, and for two features the blocks are
separated by one blank line. -/
theorem getAlerts_success_joins (state : String) (status : Nat)
    (fs : List AlertFeature) (hok : responseOk status = true) (hne : fs ≠ []) :
    getAlertsHandler state (FetchOutcome.response status (some { features := some fs })) =
      ToolResult.mk [ContentBlock.mk "text"
        ("Active Alerts in " ++ toUpperCase state ++ ":\n" ++
          String.intercalate "\n\n" (fs.map formatAlert))] ∧
    (∀ f : AlertFeature,
      getAlertsHandler state (FetchOutcome.response status (some { features := some [f] })) =
        ToolResult.mk [ContentBlock.mk "text"
          ("Active Alerts in " ++ toUpperCase state ++ ":\n" ++ formatAlert f)]) ∧
    (∀ f g : AlertFeature,
      getAlertsHandler state (FetchOutcome.response status (some { features := some [f, g] })) =
        ToolResult.mk [ContentBlock.mk "text"
          ("Active Alerts in " ++ toUpperCase state ++ ":\n" ++
            formatAlert f ++ "\n\n" ++ formatAlert g)]) := by
  refine ⟨getAlertsHandler_success state status fs hok hne, fun f => ?_, fun f g => ?_⟩
  · rw [getAlertsHandler_success state status [f] hok (by simp)]
    simp [intercalate_singleton]
  · rw [getAlertsHandler_success state status [f, g] hok (by simp)]
    simp [intercalate_pair, String.append_assoc]

/-- Witness for C4 at a concrete two-feature response: exactly one blank line
between the two blocks and no trailing separator. -/
theorem getAlerts_success_joins_witness :
    responseOk 200 = true ∧
    getAlertsHandler "CA"
        (FetchOutcome.response 200 (some { features := some [sampleFeature, blankFeature] })) =
      ToolResult.mk [ContentBlock.mk "text"
        ("Active Alerts in CA:\n" ++ formatAlert sampleFeature ++ "\n\n" ++
          formatAlert blankFeature)] := by
  have h := (getAlerts_success_joins "CA" 200 [sampleFeature, blankFeature]
    (by decide) (by simp)).2.2 sampleFeature blankFeature
  have hlit : ("Active Alerts in " ++ toUpperCase "CA" ++ ":\n" : String) =
      "Active Alerts in CA:\n" := by decide
  refine ⟨by decide, ?_⟩
  rw [h, hlit]

/-- C6: for every valid state argument, whatever the case of its letters, the
state code used in the request URL and in the output header line is the
upper-cased form of the argument. -/
theorem getAlerts_state_uppercased (state : String) (status : Nat)
    (fs : List AlertFeature) (hok : responseOk status = true) (hne : fs ≠ []) :
    handlerRequestUrl state = alertsUrl (toUpperCase state) ∧
    ∃ rest,
      getAlertsHandler state (FetchOutcome.response status (some { features := some fs })) =
        ToolResult.mk [ContentBlock.mk "text"
          ("Active Alerts in " ++ toUpperCase state ++ ":\n" ++ rest)] :=
  ⟨rfl, String.intercalate "\n\n" (fs.map formatAlert),
    getAlertsHandler_success state status fs hok hne⟩

/-- Witness for C6 at the lower-case input "ca": the URL and the header both
carry "CA". -/
theorem getAlerts_state_uppercased_witness :
    toUpperCase "ca" = "CA" ∧
    handlerRequestUrl "ca" = alertsUrl "CA" ∧
    ∃ rest,
      getAlertsHandler "ca" (FetchOutcome.response 200 (some { features := some [sampleFeature] })) =
        ToolResult.mk [ContentBlock.mk "text" ("Active Alerts in CA:\n" ++ rest)] := by
  obtain ⟨hurl, rest, hrest⟩ :=
    getAlerts_state_uppercased "ca" 200 [sampleFeature] (by decide) (by simp)
  have hlit : ("Active Alerts in " ++ toUpperCase "ca" ++ ":\n" : String) =
      "Active Alerts in CA:\n" := by decide
  exact ⟨by decide, hurl, rest, by rw [hrest, hlit]⟩

/-- C5 counterexample: the URL the handler requests for state code "CA" is
not the single-slash URL the claim states. The base constant already ends
with a slash and the template literal inserts another, producing a double
slash before the query path. -/
theorem request_url_counterexample :
    handlerRequestUrl "CA" ≠ "https://api.weather.gov/alerts?area=CA" := by decide

/-- C5 (amended): for every state argument, the handler issues its single
GET to exactly the double-slash URL built from the slash-terminated base
constant and the slash-prefixed query template, and the fixed headers are
User-Agent weather-app/1.0 and accept application/geo+json (the second
header name is lower-case in the source). -/
theorem request_url_and_headers (state : String) :
    handlerRequestUrl state = "https://api.weather.gov//alerts?area=" ++ toUpperCase state ∧
    requestHeaders = [("User-Agent", "weather-app/1.0"), ("accept", "application/geo+json")] := by
  constructor
  · apply String.ext
    simp [handlerRequestUrl, alertsUrl, NWS_API_BASE, String.data_append]
  · rfl

/-- C7 counterexample: on a successful response whose single feature lacks
the properties object, the handler does not return a normal text response;
the TypeError thrown inside formatAlert escapes the handler. -/
theorem handler_throws_on_missing_properties :
    getAlertsHandlerRaw "CA"
        (FetchOutcome.response 200 (some { features := some [{ properties := none }] })) =
      Except.error "TypeError: Cannot read properties of undefined" := rfl

theorem mapFormatRaw_ok (fs : List RawAlertFeature)
    (h : ∀ f ∈ fs, f.properties ≠ none) :
    ∃ ls, mapFormatRaw fs = Except.ok ls := by
  induction fs with
  | nil => exact ⟨[], rfl⟩
  | cons a as ih =>
    obtain ⟨ls, hls⟩ := ih (fun f hf => h f (List.mem_cons_of_mem _ hf))
    cases hpa : a.properties with
    | none => exact absurd hpa (h a (List.mem_cons_self _ _))
    | some p =>
      exact ⟨formatAlert { properties := p } :: ls,
        by simp [mapFormatRaw, formatAlertRaw, hpa, hls]⟩

/-- C7 (amended): every upstream fetch failure is caught and converted into
a normal (non-error) text response, and the handler returns a normal text
response on every upstream response whose features all carry a properties
object; but it is not total on arbitrary parsed JSON: a feature whose
properties object is missing makes the handler throw (see the
counterexample). -/
theorem handler_ok_on_conforming (state : String) (o : FetchOutcome RawAlertsResponse)
    (h : ∀ f ∈ rawFeaturesOf o, f.properties ≠ none) :
    ∃ t, getAlertsHandlerRaw state o =
      Except.ok (ToolResult.mk [ContentBlock.mk "text" t]) := by
  cases hm : makeNWSRequest o with
  | none =>
    exact ⟨"Failed to retrieve alerts. Please try again later.",
      by simp [getAlertsHandlerRaw, hm]⟩
  | some d =>
    by_cases hlen : (d.features.getD []).length = 0
    · exact ⟨"No alerts found for the given state.",
        by simp [getAlertsHandlerRaw, hm, hlen]⟩
    · have hfeat : ∀ f ∈ d.features.getD [], f.properties ≠ none := by
        intro f hf
        apply h
        simpa [rawFeaturesOf, hm] using hf
      obtain ⟨ls, hls⟩ := mapFormatRaw_ok _ hfeat
      exact ⟨"Active Alerts in " ++ toUpperCase state ++ ":\n" ++
          String.intercalate "\n\n" ls,
        by simp [getAlertsHandlerRaw, hm, hlen, hls]⟩

/-- Witness for the amended C7 at a concrete conforming outcome. -/
theorem handler_ok_on_conforming_witness :
    ∃ t,
      getAlertsHandlerRaw "CA"
          (FetchOutcome.response 200 (some { features := some [{ properties := some sampleProps }] })) =
        Except.ok (ToolResult.mk [ContentBlock.mk "text" t]) := by
  have h : ∀ f ∈ rawFeaturesOf
      (FetchOutcome.response 200 (some { features := some [{ properties := some sampleProps }] })),
      f.properties ≠ none := by
    have hr : rawFeaturesOf
        (FetchOutcome.response 200 (some { features := some [{ properties := some sampleProps }] })) =
        [{ properties := some sampleProps }] := by decide
    rw [hr]
    intro f hf
    rw [List.mem_singleton] at hf
    subst hf
    simp
  exact handler_ok_on_conforming "CA" _ h

/-- C8: the declared input schema for get-alerts accepts exactly the string
arguments of length two, so the handler body is only ever invoked with a
length-2 string: any argument of a different length or of non-string type is
rejected by schema validation, for every fetch outcome whatsoever (hence
before any network call can matter). -/
theorem schema_gates_handler (arg : JsValue) (o : FetchOutcome AlertsResponse) :
    (dispatchGetAlerts arg o ≠ none ↔ ∃ s, arg = JsValue.str s ∧ s.length = 2) ∧
    (zodStateAccepts arg = true ↔ ∃ s, arg = JsValue.str s ∧ s.length = 2) := by
  cases arg with
  | str s =>
    by_cases h : s.length = 2 <;> simp [dispatchGetAlerts, zodStateAccepts, h]
  | num n => simp [dispatchGetAlerts, zodStateAccepts]
  | boolean b => simp [dispatchGetAlerts, zodStateAccepts]
  | null => simp [dispatchGetAlerts, zodStateAccepts]

/-- Witness for C8: a three-character string is rejected, a two-character
string reaches the handler, and a non-string value fails the schema. -/
theorem schema_gates_handler_witness :
    dispatchGetAlerts (JsValue.str "CAL") FetchOutcome.throws = none ∧
    dispatchGetAlerts (JsValue.str "ca") FetchOutcome.throws ≠ none ∧
    zodStateAccepts JsValue.null = false := by
  have h1 := (schema_gates_handler (JsValue.str "CAL") FetchOutcome.throws).1
  have h2 := (schema_gates_handler (JsValue.str "ca") FetchOutcome.throws).1
  refine ⟨?_, h2.mpr ⟨"ca", rfl, by decide⟩, rfl⟩
  by_contra hne
  obtain ⟨s, hs, hl⟩ := h1.mp hne
  cases hs
  exact absurd hl (by decide)

end WeatherMcp
